import Mathlib

/-!
Verification of the Generation Dispatch & Admission Core of the `My-own-llm`
repository.  The Python sources are shallowly embedded as pure Lean functions:

* `backend/app/services/rate_limit_service.py` → `check_rate_limit` and friends,
  with the wall clock (`time.time()`) passed explicitly and the mutable
  `_counters` dictionary modelled as a function `String → Option RLEntry`;
* `backend/app/services/llm_service.py` → `generate_text` and the per-provider
  branches, with the external backends (llama.cpp, transformers, OpenAI,
  Anthropic) modelled as abstract structures of pure functions;
* `backend/app/main.py` → `generate_endpoint`, with the analytics sink outcome
  passed as a boolean.

Python `int` is modelled as `Int` (timestamps, which come from `time.time()`
and are non-negative, as `Nat`), Python `float` cost values as `Rat` (the code
performs no floating-point arithmetic on them: cost is the literal `0.0` and
temperature/top_p are passed through untouched).
-/

namespace MyOwnLLM

/-! ## Rate limiting (`rate_limit_service.py`) -/

/-- One entry of `RateLimitService._counters`:
`{ 'window_start': int, 'count': int }`. -/
structure RLEntry where
  window_start : Nat
  count : Int
deriving DecidableEq

/-- The info dictionary returned by `check_rate_limit`.  The Python code
formats `reset` as an ISO timestamp string via `datetime.fromtimestamp`; we
keep the underlying epoch second `reset_ts = window_start + window`, of which
the ISO string is an injective rendering. -/
structure RLInfo where
  limit : Int
  remaining : Int
  reset : Nat
  window : Nat
deriving DecidableEq

/-- The `_counters` dictionary: identifier → entry. -/
def RLState : Type := String → Option RLEntry

/-- `RateLimitService._get_window_start`:
`(int(time.time()) // window) * window`, with the current time passed
explicitly. -/
def get_window_start (now window : Nat) : Nat :=
  now / window * window

/-- `RateLimitService.check_rate_limit(identifier, requests, window)` at clock
`now`.  Returns the `(is_allowed, info)` pair and the updated `_counters`
state.  Mirrors the source: a missing entry or one whose stored
`window_start` differs from the current aligned window is reset to count 0
before the `count >= requests` test; a denial leaves the count unchanged,
an admission increments it and reports `remaining = max(0, requests - count)`. -/
def check_rate_limit (s : RLState) (identifier : String) (requests : Int)
    (window now : Nat) : (Bool × RLInfo) × RLState :=
  let window_start := get_window_start now window
  let entry : RLEntry :=
    match s identifier with
    | some e => if e.window_start = window_start then e else ⟨window_start, 0⟩
    | none => ⟨window_start, 0⟩
  if requests ≤ entry.count then
    ((false, ⟨requests, 0, window_start + window, window⟩),
      fun k => if k = identifier then some entry else s k)
  else
    ((true, ⟨requests, max 0 (requests - (entry.count + 1)),
        window_start + window, window⟩),
      fun k => if k = identifier then some ⟨window_start, entry.count + 1⟩ else s k)

/-- A sequence of `check_rate_limit` calls for one identifier, one call per
timestamp in the list, threading the `_counters` state; returns the list of
`(is_allowed, info)` results and the final state. -/
def check_seq (identifier : String) (requests : Int) (window : Nat) :
    List Nat → RLState → List (Bool × RLInfo) × RLState
  | [], s => ([], s)
  | now :: rest, s =>
    let r := check_rate_limit s identifier requests window now
    let tail := check_seq identifier requests window rest r.2
    (r.1 :: tail.1, tail.2)

/-! ## LLM service (`llm_service.py`) -/

/-- `app/config.py` `Settings`, restricted to the fields the dispatch core
reads.  `Optional[str]` fields are `Option String`; Python truthiness (`None`
or the empty string are falsy) is applied where the source tests them. -/
structure Settings where
  llm_provider : String
  llm_model : String
  llm_model_path : Option String
  openai_api_key : Option String
  anthropic_api_key : Option String
  price_per_1k_tokens : Rat
  rate_limit_requests : Int
  rate_limit_window : Nat

/-- `GenerationRequest` dataclass.  `temperature` and `top_p` are Python
floats; the core never computes with them, only passes them through to the
backends, so their representation is irrelevant here. -/
structure GenerationRequest where
  prompt : String
  max_tokens : Int
  temperature : Rat
  top_p : Rat
  model : String
  stop_sequences : Option (List String)
deriving DecidableEq

/-- `GenerationResponse` dataclass.  `cost` is a Python float; the only value
the code ever assigns is the literal `0.0` (see `calculate_cost`), so `Rat`
represents it exactly. -/
structure GenerationResponse where
  text : String
  input_tokens : Int
  output_tokens : Int
  total_tokens : Int
  model_used : String
  provider : String
  response_time_ms : Int
  cost : Rat
deriving DecidableEq

/-- The llama.cpp backend as seen by `_generate_llamacpp`: `llm.tokenize` on
the UTF-8 bytes of a string, and the completion call returning
`result["choices"][0]["text"]`. -/
structure LlamaBackend where
  tokenize : String → List Int
  complete : GenerationRequest → String

/-- The transformers backend as seen by `_generate_huggingface`:
`tokenizer(prompt).input_ids.shape[1]`, `tokenizer.encode`, and the pipeline
call returning `outputs[0]["generated_text"]`. -/
structure HFBackend where
  tokenize_len : String → Int
  encode_len : String → Int
  generated_text : GenerationRequest → String

/-- `response.usage` of an OpenAI chat completion. -/
structure OpenAIUsage where
  prompt_tokens : Int
  completion_tokens : Int
  total_tokens : Int
deriving DecidableEq

/-- An OpenAI chat completion as read by `_generate_openai`:
`response.choices[0].message.content` and `response.usage`. -/
structure OpenAIResponse where
  content : String
  usage : OpenAIUsage
deriving DecidableEq

/-- The hosted OpenAI API: `openai.ChatCompletion.create`. -/
structure OpenAIBackend where
  create : GenerationRequest → OpenAIResponse

/-- `response.usage` of an Anthropic message. -/
structure AnthropicUsage where
  input_tokens : Int
  output_tokens : Int
deriving DecidableEq

/-- An Anthropic message as read by `_generate_anthropic`:
`response.content[0].text` and `response.usage`. -/
structure AnthropicResponse where
  text : String
  usage : AnthropicUsage
deriving DecidableEq

/-- The hosted Anthropic API: `client.messages.create`. -/
structure AnthropicBackend where
  create : GenerationRequest → AnthropicResponse

/-- Python `a or b` on an optional string: `None` and `""` are falsy. -/
def orDefault (o : Option String) (d : String) : String :=
  match o with
  | none => d
  | some v => if v = "" then d else v

/-- `os.path.basename`: the part after the last `/`. -/
def basename (p : String) : String :=
  (p.splitOn "/").getLastD ""

/-- Python `str.lower()` as used on provider names: per-character ASCII
lowering.  (Defined by structural recursion over the character list so that
concrete instances reduce in the kernel; `String.toLower` is the same
per-character map.) -/
def lower (s : String) : String :=
  ⟨s.data.map Char.toLower⟩

/-- `LLMService._calculate_cost(total_tokens)`: the body is literally
`return 0.0`.  The settings argument reflects the module-global `settings`
the method could read; it is not consulted. -/
def calculate_cost (st : Settings) (total_tokens : Int) : Rat :=
  0

/-- The cost model in the words of the spec, for comparison with
`calculate_cost`: `cost = (total_token_count / 1000) * configured_rate`. -/
def spec_cost (rate : Rat) (total_tokens : Int) : Rat :=
  ((total_tokens : Rat) / 1000) * rate

/-- Success path of `LLMService._generate_huggingface` with a loaded pipeline:
input count from the tokenizer on the prompt, output text is the generated
text with the echoed prompt trimmed, output count from `tokenizer.encode`,
total computed as their sum. -/
def generate_huggingface (hf : HFBackend) (st : Settings)
    (request : GenerationRequest) : GenerationResponse :=
  let input_tokens := hf.tokenize_len request.prompt
  let generated_text := hf.generated_text request
  let output_text := generated_text.drop request.prompt.length
  let output_tokens := hf.encode_len output_text
  { text := output_text.trim
    input_tokens := input_tokens
    output_tokens := output_tokens
    total_tokens := input_tokens + output_tokens
    model_used := st.llm_model
    provider := "huggingface"
    response_time_ms := 0
    cost := 0 }

/-- Success path of `LLMService._generate_llamacpp` with a loaded model:
both token counts from `llm.tokenize`, total computed as their sum, model
name from the basename of the configured GGUF path. -/
def generate_llamacpp (llm : LlamaBackend) (st : Settings)
    (request : GenerationRequest) : GenerationResponse :=
  let input_tokens := (llm.tokenize request.prompt).length
  let text := llm.complete request
  let output_tokens := (llm.tokenize text).length
  { text := text.trim
    input_tokens := input_tokens
    output_tokens := output_tokens
    total_tokens := input_tokens + output_tokens
    model_used := basename (orDefault st.llm_model_path "model.gguf")
    provider := "llamacpp"
    response_time_ms := 0
    cost := 0 }

/-- Success path of `LLMService._generate_openai`: all three token counts are
copied verbatim from the provider's `response.usage` metadata — including
`total_tokens`, which is *not* recomputed as input + output. -/
def generate_openai (oa : OpenAIBackend)
    (request : GenerationRequest) : GenerationResponse :=
  let response := oa.create request
  { text := response.content
    input_tokens := response.usage.prompt_tokens
    output_tokens := response.usage.completion_tokens
    total_tokens := response.usage.total_tokens
    model_used := if request.model = "" then "gpt-3.5-turbo" else request.model
    provider := "openai"
    response_time_ms := 0
    cost := 0 }

/-- Success path of `LLMService._generate_anthropic`: input and output counts
from the provider's usage metadata, total computed as their sum. -/
def generate_anthropic (an : AnthropicBackend)
    (request : GenerationRequest) : GenerationResponse :=
  let response := an.create request
  { text := response.text
    input_tokens := response.usage.input_tokens
    output_tokens := response.usage.output_tokens
    total_tokens := response.usage.input_tokens + response.usage.output_tokens
    model_used := if request.model = "" then "claude-3-sonnet-20240229" else request.model
    provider := "anthropic"
    response_time_ms := 0
    cost := 0 }

/-- `LLMService.generate_text` (success path): dispatch on the lowercased
configured provider name — anything other than the three named providers
reaches the final `else` and is served by llama.cpp — then overwrite
`response_time_ms` with the orchestrator-measured elapsed time and `cost`
with `_calculate_cost(total_tokens)`. -/
def generate_text (st : Settings) (llm : LlamaBackend) (hf : HFBackend)
    (oa : OpenAIBackend) (an : AnthropicBackend) (elapsed_ms : Int)
    (request : GenerationRequest) : GenerationResponse :=
  let provider := (lower st.llm_provider)
  let response :=
    if provider = "huggingface" then generate_huggingface hf st request
    else if provider = "openai" then generate_openai oa request
    else if provider = "anthropic" then generate_anthropic an request
    else generate_llamacpp llm st request
  { response with
      response_time_ms := elapsed_ms
      cost := calculate_cost st response.total_tokens }

/-! ## Model initialization and provider resolution (`llm_service.py`) -/

/-- The process environment the loaders probe: which optional packages
imported successfully (`Llama is None` tests and friends), which filesystem
paths exist, and whether the HuggingFace `from_pretrained` download/load
succeeds (an external effect). -/
structure Env where
  llama_installed : Bool
  transformers_installed : Bool
  openai_installed : Bool
  anthropic_installed : Bool
  path_exists : String → Bool
  hf_load_ok : Bool

/-- The closed enumeration of provider branches in `llm_service.py`. -/
inductive ProviderBranch where
  | huggingface
  | openai
  | anthropic
  | llamacpp
deriving DecidableEq

/-- The branch selection of `LLMService._initialize_models`: lowercase the
configured name, match it against the known names, and default to llama.cpp
with a `logger.warning` for anything else.  The second component records
whether that warning was logged. -/
def init_select (provider : String) : ProviderBranch × Bool :=
  let p := lower provider
  if p = "huggingface" then (.huggingface, false)
  else if p = "openai" then (.openai, false)
  else if p = "anthropic" then (.anthropic, false)
  else if p = "llamacpp" ∨ p = "llama.cpp" ∨ p = "llama-cpp" then (.llamacpp, false)
  else (.llamacpp, true)

/-- The branch selection of `LLMService.generate_text`: the same lowercased
comparison, but any name that is not one of the three non-default providers —
known llama.cpp spellings and unrecognized names alike — silently takes the
final `else` branch.  The second component records whether a warning was
logged during dispatch; `generate_text` contains no logging call, so it is
`false` on every path. -/
def dispatch_select (provider : String) : ProviderBranch × Bool :=
  let p := lower provider
  if p = "huggingface" then (.huggingface, false)
  else if p = "openai" then (.openai, false)
  else if p = "anthropic" then (.anthropic, false)
  else (.llamacpp, false)

/-- `LLMService._load_llamacpp_model`: raises (modelled as `.error`) when
`llama_cpp` failed to import, or when the configured model path is falsy
(`None` or empty) or does not exist on disk. -/
def load_llamacpp_model (env : Env) (st : Settings) : Except String Unit :=
  if ¬ env.llama_installed then
    .error "llama-cpp-python not installed"
  else
    match st.llm_model_path with
    | none => .error "llama.cpp model file not found"
    | some p =>
      if p = "" ∨ ¬ env.path_exists p then .error "llama.cpp model file not found"
      else .ok ()

/-- `LLMService._load_huggingface_model`: raises when transformers/torch are
missing or the model load fails. -/
def load_huggingface_model (env : Env) : Except String Unit :=
  if ¬ env.transformers_installed then
    .error "transformers/torch not installed"
  else if ¬ env.hf_load_ok then
    .error "failed to load Hugging Face model"
  else
    .ok ()

/-- `LLMService._initialize_openai`: raises when the package is missing or the
API key is falsy. -/
def initialize_openai (env : Env) (st : Settings) : Except String Unit :=
  if ¬ env.openai_installed then
    .error "openai package not installed"
  else
    match st.openai_api_key with
    | none => .error "OpenAI API key not configured"
    | some k => if k = "" then .error "OpenAI API key not configured" else .ok ()

/-- `LLMService._initialize_anthropic`: raises when the package is missing or
the API key is falsy. -/
def initialize_anthropic (env : Env) (st : Settings) : Except String Unit :=
  if ¬ env.anthropic_installed then
    .error "anthropic package not installed"
  else
    match st.anthropic_api_key with
    | none => .error "Anthropic API key not configured"
    | some k => if k = "" then .error "Anthropic API key not configured" else .ok ()

/-- The mutable service state set up by `LLMService.__init__`: which backend
objects are loaded.  The loaded objects themselves are opaque here, so each
slot is an `Option Unit` flag mirroring `None`-ness in the source. -/
structure LLMState where
  llamacpp_model : Option Unit
  hf_pipeline : Option Unit
  anthropic_client : Option Unit
  openai_ready : Bool
deriving DecidableEq

/-- The fresh state of `LLMService.__init__` before `_initialize_models`. -/
def initial_llm_state : LLMState :=
  ⟨none, none, none, false⟩

/-- The body of `LLMService._initialize_models` inside its `try`: select the
branch (logging a warning for unrecognized names) and run the corresponding
loader, any of which may raise. -/
def initialize_models_inner (env : Env) (st : Settings) :
    Except String LLMState :=
  match (init_select st.llm_provider).1 with
  | .huggingface => (load_huggingface_model env).map fun _ =>
      { initial_llm_state with hf_pipeline := some () }
  | .openai => (initialize_openai env st).map fun _ =>
      { initial_llm_state with openai_ready := true }
  | .anthropic => (initialize_anthropic env st).map fun _ =>
      { initial_llm_state with anthropic_client := some () }
  | .llamacpp => (load_llamacpp_model env st).map fun _ =>
      { initial_llm_state with llamacpp_model := some () }

/-- `LLMService._initialize_models`: the whole body is wrapped in
`try/except Exception`, which logs the error with `logger.error` and returns
normally, leaving the service constructed with nothing loaded.  Returns the
resulting state together with the logged error, if any — initialization never
propagates an exception. -/
def initialize_models (env : Env) (st : Settings) : LLMState × Option String :=
  match initialize_models_inner env st with
  | .ok state => (state, none)
  | .error e => (initial_llm_state, some e)

/-- `LLMService._generate_llamacpp` including its lazy-load prelude: when
`self.llamacpp_model is None` it calls `_load_llamacpp_model()` at generation
time, and only then runs the completion; the load failure therefore surfaces
as a call-time exception (`.error`). -/
def generate_llamacpp_checked (state : LLMState) (env : Env) (st : Settings)
    (llm : LlamaBackend) (request : GenerationRequest) :
    Except String (GenerationResponse × LLMState) :=
  match state.llamacpp_model with
  | some _ => .ok (generate_llamacpp llm st request, state)
  | none =>
    match load_llamacpp_model env st with
    | .error e => .error e
    | .ok _ =>
      .ok (generate_llamacpp llm st request,
        { state with llamacpp_model := some () })

/-! ## The `/api/v1/generate` endpoint (`main.py`) -/

/-- The caller-visible outcome of the endpoint: either the success payload
(text plus usage summary) or an HTTP error with status and detail. -/
inductive EndpointResult where
  | success (text : String) (total_tokens : Int) (cost : Rat)
      (model : String) (provider : String)
  | failure (status : Int) (detail : String)
deriving DecidableEq

/-- `RateLimitService.enforce_rate_limit`: run the check; on denial raise
HTTP 429 (modelled as `.error` carrying the info), on admission return the
info.  The updated counter state is threaded alongside. -/
def enforce_rate_limit (s : RLState) (identifier : String) (requests : Int)
    (window now : Nat) : Except RLInfo RLInfo × RLState :=
  let r := check_rate_limit s identifier requests window now
  ((if r.1.1 then .ok r.1.2 else .error r.1.2), r.2)

/-- The body of the `generate_text` endpoint in `main.py`.  `gen` is the
outcome of `llm_service.generate_text` (which may raise), `sink_ok` whether
the `analytics_service.track_usage` database write succeeds; when the write
fails its exception propagates into the endpoint's catch-all `except`, which
logs it and raises HTTP 500 "Generation failed".  Returns the caller-visible
result, the number of usage records handed to the sink, and the rate-limiter
state. -/
def generate_endpoint (s : RLState) (user_id : String) (requests : Int)
    (window now : Nat) (gen : Except String GenerationResponse)
    (sink_ok : Bool) : EndpointResult × Nat × RLState :=
  match enforce_rate_limit s ("user:" ++ user_id) requests window now with
  | (.error _, s1) => (.failure 429 "Rate limit exceeded", 0, s1)
  | (.ok _, s1) =>
    match gen with
    | .error _ => (.failure 500 "Generation failed", 0, s1)
    | .ok response =>
      if sink_ok then
        (.success response.text response.total_tokens response.cost
          response.model_used response.provider, 1, s1)
      else
        (.failure 500 "Generation failed", 1, s1)

/-! ## Concrete instances used by witnesses and counterexamples -/

/-- A deterministic llama.cpp stub: one token per character, fixed output. -/
def llmStub : LlamaBackend :=
  ⟨fun s => (s.toList.map fun c => (c.toNat : Int)), fun _ => "Hello"⟩

/-- A deterministic transformers stub. -/
def hfStub : HFBackend :=
  ⟨fun s => (s.length : Int), fun s => (s.length : Int), fun r => r.prompt ++ " there"⟩

/-- An OpenAI stub whose usage metadata is internally consistent. -/
def oaStub : OpenAIBackend :=
  ⟨fun _ => ⟨"ok", ⟨1, 1, 2⟩⟩⟩

/-- An OpenAI stub reporting an inconsistent total: prompt 1, completion 1,
total 5. -/
def oaBad5 : OpenAIBackend :=
  ⟨fun _ => ⟨"ok", ⟨1, 1, 5⟩⟩⟩

/-- Like `oaBad5` but reporting total 7: identical raw text and per-side
counts, different provider-reported total. -/
def oaBad7 : OpenAIBackend :=
  ⟨fun _ => ⟨"ok", ⟨1, 1, 7⟩⟩⟩

/-- A deterministic Anthropic stub. -/
def anStub : AnthropicBackend :=
  ⟨fun _ => ⟨"hi", ⟨1, 1⟩⟩⟩

/-- A small concrete request. -/
def req0 : GenerationRequest :=
  ⟨"Hi", 10, 0, 0, "default", none⟩

/-- Settings configured for llama.cpp with a zero rate. -/
def settingsLlama : Settings :=
  ⟨"llamacpp", "meta-llama/Llama-2-7b-chat-hf",
    some "models/TinyLlama-1.1B-Chat-v1.0.Q4_K_M.gguf", none, none, 0, 100, 3600⟩

/-- Settings configured for llama.cpp with a nonzero configured rate of 2 per
1k tokens. -/
def settingsLlamaRate2 : Settings :=
  ⟨"llamacpp", "meta-llama/Llama-2-7b-chat-hf",
    some "models/TinyLlama-1.1B-Chat-v1.0.Q4_K_M.gguf", none, none, 2, 100, 3600⟩

/-- Settings configured for the hosted OpenAI provider. -/
def settingsOpenAI : Settings :=
  ⟨"openai", "meta-llama/Llama-2-7b-chat-hf", none, some "sk-test", none, 0, 100, 3600⟩

/-- An environment where llama-cpp-python is importable but the configured
GGUF file is absent from disk. -/
def envMissingFile : Env :=
  ⟨true, false, false, false, fun _ => false, false⟩

/-- A successful concrete generation outcome, for exercising the endpoint. -/
def resp0 : GenerationResponse :=
  ⟨"Hello", 1, 1, 2, "model.gguf", "llamacpp", 5, 0⟩

/-- Settings whose configured provider name is not in the known enumeration. -/
def settingsUnknown : Settings :=
  ⟨"gpt5", "meta-llama/Llama-2-7b-chat-hf",
    some "models/TinyLlama-1.1B-Chat-v1.0.Q4_K_M.gguf", none, none, 0, 100, 3600⟩


lemma check_fst_of_entry {s : RLState} {identifier : String} {ws : Nat} {c requests : Int}
    {window now : Nat} (hws : get_window_start now window = ws)
    (h : s identifier = some ⟨ws, c⟩) :
    (check_rate_limit s identifier requests window now).1 =
      if requests ≤ c then (false, ⟨requests, 0, ws + window, window⟩)
      else (true, ⟨requests, max 0 (requests - (c + 1)), ws + window, window⟩) := by
  simp only [check_rate_limit, h, hws]
  simp only [eq_self_iff_true, if_true]
  split <;> rfl

lemma check_snd_of_entry {s : RLState} {identifier : String} {ws : Nat} {c requests : Int}
    {window now : Nat} (hws : get_window_start now window = ws)
    (h : s identifier = some ⟨ws, c⟩) :
    (check_rate_limit s identifier requests window now).2 identifier =
      some ⟨ws, if requests ≤ c then c else c + 1⟩ := by
  simp only [check_rate_limit, h, hws]
  simp only [eq_self_iff_true, if_true]
  split <;> simp

lemma check_fst_fresh {s : RLState} {identifier : String} {requests : Int}
    {window now : Nat}
    (h : ∀ e, s identifier = some e → e.window_start ≠ get_window_start now window) :
    (check_rate_limit s identifier requests window now).1 =
      if requests ≤ 0 then
        (false, ⟨requests, 0, get_window_start now window + window, window⟩)
      else
        (true, ⟨requests, max 0 (requests - 1),
          get_window_start now window + window, window⟩) := by
  cases hs : s identifier with
  | none =>
    simp only [check_rate_limit, hs]
    split <;> rfl
  | some e =>
    have hne := h e hs
    simp only [check_rate_limit, hs, if_neg hne]
    split <;> rfl

lemma check_snd_fresh {s : RLState} {identifier : String} {requests : Int}
    {window now : Nat}
    (h : ∀ e, s identifier = some e → e.window_start ≠ get_window_start now window) :
    (check_rate_limit s identifier requests window now).2 identifier =
      some ⟨get_window_start now window, if requests ≤ 0 then 0 else 1⟩ := by
  cases hs : s identifier with
  | none =>
    simp only [check_rate_limit, hs]
    split <;> simp
  | some e =>
    have hne := h e hs
    simp only [check_rate_limit, hs, if_neg hne]
    split <;> simp

/-- Element `k` of a run of checks that starts with a stored entry for the
current window holding count `c`: the call is admitted exactly when the count
has not yet reached `requests`, i.e. when `requests ≤ c + k` fails. -/
lemma check_seq_elem (identifier : String) (requests : Int) (window ws : Nat)
    (times : List Nat) :
    ∀ (s : RLState) (c : Int),
      (∀ t ∈ times, get_window_start t window = ws) →
      s identifier = some ⟨ws, c⟩ →
      ∀ k : Nat, k < times.length →
        (check_seq identifier requests window times s).1[k]? =
          some (if requests ≤ c + k then
                  (false, ⟨requests, 0, ws + window, window⟩)
                else
                  (true, ⟨requests, max 0 (requests - (c + k + 1)),
                    ws + window, window⟩)) := by
  induction times with
  | nil =>
    intro s c _ _ k hk
    simp at hk
  | cons t ts ih =>
    intro s c htimes hentry k hk
    have hws : get_window_start t window = ws := htimes t (by simp)
    have hts : ∀ u ∈ ts, get_window_start u window = ws := by
      intro u hu; exact htimes u (by simp [hu])
    match k with
    | 0 =>
      simp only [check_seq, List.getElem?_cons_zero, Option.some.injEq]
      rw [check_fst_of_entry hws hentry]
      norm_num
    | k + 1 =>
      have hsnd := @check_snd_of_entry s identifier ws c requests window t hws hentry
      simp only [check_seq, List.getElem?_cons_succ]
      by_cases hge : requests ≤ c
      · rw [if_pos hge] at hsnd
        rw [ih _ c hts hsnd k (by simpa using hk)]
        have h1 : requests ≤ c + (k : Int) := by omega
        have h2 : requests ≤ c + ((k : Nat) + 1 : Int) := by push_cast; omega
        rw [if_pos h1, if_pos (by push_cast; omega)]
      · rw [if_neg hge] at hsnd
        rw [ih _ (c + 1) hts hsnd k (by simpa using hk)]
        by_cases hcond : requests ≤ c + 1 + (k : Int)
        · rw [if_pos hcond, if_pos (by push_cast; omega)]
        · rw [if_neg hcond, if_neg (by push_cast; omega)]
          congr 2
          push_cast
          ring

/-- Element `k` of a run of checks whose identifier starts with no entry in the
current aligned window (fresh identity, or a stale entry from an old window). -/
lemma check_seq_elem_fresh (identifier : String) (requests : Int) (window ws : Nat)
    (times : List Nat) (s : RLState)
    (htimes : ∀ t ∈ times, get_window_start t window = ws)
    (hfresh : ∀ e, s identifier = some e → e.window_start ≠ ws) :
    ∀ k : Nat, k < times.length →
      (check_seq identifier requests window times s).1[k]? =
        some (if requests ≤ (k : Int) then
                (false, ⟨requests, 0, ws + window, window⟩)
              else
                (true, ⟨requests, max 0 (requests - (k + 1)),
                  ws + window, window⟩)) := by
  cases times with
  | nil => intro k hk; simp at hk
  | cons t ts =>
    intro k hk
    have hws : get_window_start t window = ws := htimes t (by simp)
    have hts : ∀ u ∈ ts, get_window_start u window = ws := by
      intro u hu; exact htimes u (by simp [hu])
    have hfresh' : ∀ e, s identifier = some e →
        e.window_start ≠ get_window_start t window := by
      intro e he; rw [hws]; exact hfresh e he
    have hsnd := @check_snd_fresh s identifier requests window t hfresh'
    rw [hws] at hsnd
    match k with
    | 0 =>
      simp only [check_seq, List.getElem?_cons_zero, Option.some.injEq]
      rw [check_fst_fresh hfresh', hws]
      norm_num
    | k + 1 =>
      simp only [check_seq, List.getElem?_cons_succ]
      by_cases hge : requests ≤ 0
      · rw [if_pos hge] at hsnd
        rw [check_seq_elem identifier requests window ws ts _ 0 hts hsnd k
          (by simpa using hk)]
        rw [if_pos (by omega), if_pos (by push_cast; omega)]
      · rw [if_neg hge] at hsnd
        rw [check_seq_elem identifier requests window ws ts _ 1 hts hsnd k
          (by simpa using hk)]
        by_cases hcond : requests ≤ 1 + (k : Int)
        · rw [if_pos hcond, if_pos (by push_cast; omega)]
        · rw [if_neg hcond, if_neg (by push_cast; omega)]
          congr 2
          push_cast
          ring

/-- C1: For every identity and every limit > 0, within one aligned fixed window
the first `limit` calls to `check_rate_limit` return allowed=true with strictly
decreasing remaining values (`limit - 1` down to `0`, element `k` reporting
`limit - (k+1)`), and every later call in the same window — in particular the
`(limit+1)`-th — returns allowed=false with remaining = 0 and reset equal to
`window_start + window`. -/
theorem rate_limit_first_window (identifier : String) (limit : Int)
    (window ws : Nat) (times : List Nat) (s : RLState)
    (hlim : 0 < limit) (hw : 0 < window)
    (htimes : ∀ t ∈ times, get_window_start t window = ws)
    (hfresh : ∀ e, s identifier = some e → e.window_start ≠ ws) :
    (∀ k : Nat, k < times.length → (k : Int) < limit →
        (check_seq identifier limit window times s).1[k]? =
          some (true, ⟨limit, limit - (k + 1), ws + window, window⟩)) ∧
    (∀ k : Nat, k < times.length → limit ≤ (k : Int) →
        (check_seq identifier limit window times s).1[k]? =
          some (false, ⟨limit, 0, ws + window, window⟩)) := by
  constructor <;> intro k hk hcmp <;>
    rw [check_seq_elem_fresh identifier limit window ws times s htimes hfresh k hk]
  · rw [if_neg (by omega)]
    congr 3
    omega
  · rw [if_pos (by omega)]

/-- Concrete run of C1: limit 3, window 60 s, identity u1, four calls inside the
window starting at epoch 0 — calls at indices 0 and 2 are admitted with
remaining 2 and 0, the fourth call (index 3) is denied with reset 60. -/
theorem rate_limit_first_window_witness :
    (check_seq "u1" 3 60 [0, 10, 20, 30] (fun _ => none)).1[0]? =
        some (true, ⟨3, 2, 60, 60⟩) ∧
    (check_seq "u1" 3 60 [0, 10, 20, 30] (fun _ => none)).1[2]? =
        some (true, ⟨3, 0, 60, 60⟩) ∧
    (check_seq "u1" 3 60 [0, 10, 20, 30] (fun _ => none)).1[3]? =
        some (false, ⟨3, 0, 60, 60⟩) := by
  have h := rate_limit_first_window "u1" 3 60 0 [0, 10, 20, 30] (fun _ => none)
    (by decide) (by decide) (by decide) (fun e he => by cases he)
  refine ⟨?_, ?_, ?_⟩
  · have := h.1 0 (by decide) (by decide)
    simpa using this
  · have := h.1 2 (by decide) (by decide)
    simpa using this
  · have := h.2 3 (by decide) (by decide)
    simpa using this

/-- C8: for an identity whose stored `window_start` differs from the current
aligned window (e.g. after the clock advanced by at least `window` seconds),
the next `check_rate_limit` call discards the previous window's count: it is
admitted with remaining = limit − 1, and the stored counter becomes 1 in the
new window. -/
theorem rate_limit_window_rollover (s : RLState) (identifier : String)
    (e : RLEntry) (limit : Int) (window now : Nat)
    (hentry : s identifier = some e)
    (hstale : e.window_start ≠ get_window_start now window)
    (hlim : 0 < limit) (hw : 0 < window) :
    (check_rate_limit s identifier limit window now).1 =
      (true, ⟨limit, limit - 1, get_window_start now window + window, window⟩) ∧
    (check_rate_limit s identifier limit window now).2 identifier =
      some ⟨get_window_start now window, 1⟩ := by
  have hfresh : ∀ e', s identifier = some e' →
      e'.window_start ≠ get_window_start now window := by
    intro e' he'
    rw [hentry] at he'
    cases he'
    exact hstale
  constructor
  · rw [check_fst_fresh hfresh, if_neg (by omega)]
    congr 2
    omega
  · rw [check_snd_fresh hfresh, if_neg (by omega)]

/-- Concrete run of C8: identity u1 holds count 3 from the window starting at
epoch 0; at time 61 with window 60 the aligned window is 60, so the call is
admitted with remaining 2 and the counter restarts at 1. -/
theorem rate_limit_window_rollover_witness :
    (check_rate_limit
        (fun k => if k = "u1" then some ⟨0, 3⟩ else none) "u1" 3 60 61).1 =
      (true, ⟨3, 2, 120, 60⟩) ∧
    (check_rate_limit
        (fun k => if k = "u1" then some ⟨0, 3⟩ else none) "u1" 3 60 61).2 "u1" =
      some ⟨60, 1⟩ := by
  have h := rate_limit_window_rollover
    (fun k => if k = "u1" then some ⟨0, 3⟩ else none) "u1" ⟨0, 3⟩ 3 60 61
    (by simp) (by decide) (by decide) (by decide)
  refine ⟨?_, ?_⟩
  · have := h.1
    simpa using this
  · have := h.2
    simpa using this

/-- C10: with a non-positive `requests` limit every `check_rate_limit` call is
denied with remaining 0 — including the very first call of a fresh window,
because the freshly reset count 0 already satisfies `count >= requests` —
provided the stored count (if any) is non-negative, an invariant of every
reachable counter state. -/
theorem rate_limit_nonpositive_denies (s : RLState) (identifier : String)
    (limit : Int) (window now : Nat)
    (hlim : limit ≤ 0) (hw : 0 < window)
    (hcount : ∀ e, s identifier = some e → 0 ≤ e.count) :
    (check_rate_limit s identifier limit window now).1 =
      (false, ⟨limit, 0, get_window_start now window + window, window⟩) := by
  cases hs : s identifier with
  | none =>
    have hfresh : ∀ e, s identifier = some e →
        e.window_start ≠ get_window_start now window := by
      intro e he; rw [hs] at he; cases he
    rw [check_fst_fresh hfresh, if_pos hlim]
  | some e =>
    by_cases hmatch : e.window_start = get_window_start now window
    · have hc := hcount e hs
      have he' : s identifier = some ⟨get_window_start now window, e.count⟩ := by
        rw [hs]; cases e; simp_all
      rw [check_fst_of_entry rfl he', if_pos (by omega)]
    · have hfresh : ∀ e', s identifier = some e' →
          e'.window_start ≠ get_window_start now window := by
        intro e' he'; rw [hs] at he'; cases he'; exact hmatch
      rw [check_fst_fresh hfresh, if_pos hlim]

/-- Concrete run of C10: limit 0 on a fresh identity is denied immediately. -/
theorem rate_limit_nonpositive_denies_witness :
    (check_rate_limit (fun _ => none) "u1" 0 60 0).1 = (false, ⟨0, 0, 60, 60⟩) := by
  have h := rate_limit_nonpositive_denies (fun _ => none) "u1" 0 60 0
    (by decide) (by decide) (fun e he => by cases he)
  simpa using h

/-- C2 counterexample: with the hosted openai provider configured and a
backend whose response metadata reports prompt 1, completion 1, total 5, the
successful `generate_text` result violates total = input + output — the code
copies the provider-reported total verbatim instead of recomputing it — so
the invariant does not hold for every provider branch as claimed. -/
theorem total_tokens_invariant_cex :
    (generate_text settingsOpenAI llmStub hfStub oaBad5 anStub 0 req0).total_tokens ≠
      (generate_text settingsOpenAI llmStub hfStub oaBad5 anStub 0 req0).input_tokens +
        (generate_text settingsOpenAI llmStub hfStub oaBad5 anStub 0 req0).output_tokens := by
  decide

/-- C2 amended: `total_tokens = input_tokens + output_tokens` holds for the
huggingface, anthropic and llama.cpp branches, where the code computes the
total itself; in the openai branch all three counts are copied verbatim from
the provider's usage metadata, so there the invariant holds exactly when the
provider's own metadata satisfies it. -/
theorem total_tokens_invariant_amended (st : Settings) (llm : LlamaBackend)
    (hf : HFBackend) (oa : OpenAIBackend) (an : AnthropicBackend)
    (elapsed_ms : Int) (request : GenerationRequest) :
    ((lower st.llm_provider) ≠ "openai" →
      (generate_text st llm hf oa an elapsed_ms request).total_tokens =
        (generate_text st llm hf oa an elapsed_ms request).input_tokens +
          (generate_text st llm hf oa an elapsed_ms request).output_tokens) ∧
    ((lower st.llm_provider) = "openai" →
      (generate_text st llm hf oa an elapsed_ms request).total_tokens =
          (oa.create request).usage.total_tokens ∧
        (generate_text st llm hf oa an elapsed_ms request).input_tokens =
          (oa.create request).usage.prompt_tokens ∧
        (generate_text st llm hf oa an elapsed_ms request).output_tokens =
          (oa.create request).usage.completion_tokens) := by
  constructor <;> intro h <;>
    simp [generate_text, generate_huggingface, generate_openai,
      generate_anthropic, generate_llamacpp, h] <;>
    split_ifs <;> simp_all

/-- C2 amended witness: the llama.cpp branch on a concrete run satisfies the
computed-total invariant. -/
theorem total_tokens_invariant_amended_witness :
    (lower settingsLlama.llm_provider) ≠ "openai" ∧
    (generate_text settingsLlama llmStub hfStub oaStub anStub 0 req0).total_tokens =
      (generate_text settingsLlama llmStub hfStub oaStub anStub 0 req0).input_tokens +
        (generate_text settingsLlama llmStub hfStub oaStub anStub 0 req0).output_tokens := by
  refine ⟨by decide, ?_⟩
  exact (total_tokens_invariant_amended settingsLlama llmStub hfStub oaStub
    anStub 0 req0).1 (by decide)

/-- C3 counterexample: with a configured rate of 2 per 1k tokens and a run
totalling 7 tokens, `generate_text` still reports cost 0 while the claimed
formula `(total / 1000) * rate` gives a nonzero value — `_calculate_cost`
ignores the configured rate entirely. -/
theorem cost_formula_cex :
    (generate_text settingsLlamaRate2 llmStub hfStub oaStub anStub 0 req0).cost = 0 ∧
    (generate_text settingsLlamaRate2 llmStub hfStub oaStub anStub 0 req0).total_tokens ≠ 0 ∧
    settingsLlamaRate2.price_per_1k_tokens ≠ 0 ∧
    spec_cost settingsLlamaRate2.price_per_1k_tokens
      (generate_text settingsLlamaRate2 llmStub hfStub oaStub anStub 0 req0).total_tokens ≠ 0 := by
  have htot : (generate_text settingsLlamaRate2 llmStub hfStub oaStub anStub
      0 req0).total_tokens = 7 := rfl
  refine ⟨rfl, by rw [htot]; decide, ?_, ?_⟩
  · show (2 : Rat) ≠ 0
    norm_num
  · rw [htot]
    show spec_cost 2 7 ≠ 0
    norm_num [spec_cost]

/-- C3 amended: the cost of every successful `generate_text` is 0, whatever
the configured `price_per_1k_tokens` and whatever the token counts:
`_calculate_cost` returns the literal 0.0 without consulting the rate, so the
cost agrees with the spec formula `(total / 1000) * rate` only when that
product is itself 0. -/
theorem cost_always_zero (st : Settings) (llm : LlamaBackend) (hf : HFBackend)
    (oa : OpenAIBackend) (an : AnthropicBackend) (elapsed_ms : Int)
    (request : GenerationRequest) :
    (generate_text st llm hf oa an elapsed_ms request).cost = 0 := by
  simp [generate_text, calculate_cost]

/-- C9 counterexample: two openai backends with identical raw outputs (same
text, same prompt and completion counts) that differ only in the
provider-reported `total_tokens` yield `generate_text` results with different
totals — so `total_tokens` is taken from the adapter's reported value, not
derived by the orchestrator from the raw outputs. -/
theorem derived_fields_cex :
    (generate_text settingsOpenAI llmStub hfStub oaBad5 anStub 0 req0).total_tokens = 5 ∧
    (generate_text settingsOpenAI llmStub hfStub oaBad7 anStub 0 req0).total_tokens = 7 := by
  exact ⟨rfl, rfl⟩

/-- C9 amended: after every successful dispatch the orchestrator overwrites
`response_time_ms` with its own elapsed measurement and `cost` with
`_calculate_cost` (always 0), independently of anything the adapter set; but
`total_tokens` is produced inside the adapter branch — in the openai branch it
is copied from the provider's reported metadata rather than computed by the
orchestrator. -/
theorem derived_fields_amended (st : Settings) (llm : LlamaBackend)
    (hf : HFBackend) (oa : OpenAIBackend) (an : AnthropicBackend)
    (elapsed_ms : Int) (request : GenerationRequest) :
    (generate_text st llm hf oa an elapsed_ms request).response_time_ms = elapsed_ms ∧
    (generate_text st llm hf oa an elapsed_ms request).cost = 0 ∧
    ((lower st.llm_provider) = "openai" →
      (generate_text st llm hf oa an elapsed_ms request).total_tokens =
        (oa.create request).usage.total_tokens) := by
  refine ⟨rfl, rfl, fun h => ?_⟩
  simp [generate_text, generate_openai, h]

/-- C9 amended witness: a concrete openai run carries the orchestrator's
elapsed time 42 and cost 0, and the provider-reported total 5. -/
theorem derived_fields_amended_witness :
    (generate_text settingsOpenAI llmStub hfStub oaBad5 anStub 42 req0).response_time_ms = 42 ∧
    (generate_text settingsOpenAI llmStub hfStub oaBad5 anStub 42 req0).cost = 0 ∧
    (generate_text settingsOpenAI llmStub hfStub oaBad5 anStub 42 req0).total_tokens =
      (oaBad5.create req0).usage.total_tokens := by
  have h := derived_fields_amended settingsOpenAI llmStub hfStub oaBad5 anStub 42 req0
  exact ⟨h.1, h.2.1, h.2.2 (by decide)⟩

/-- C4 counterexample: a call that passes admission and generates successfully
but whose usage write fails is answered with HTTP 500 "Generation failed" —
the endpoint's catch-all `except` turns the storage failure into a generation
failure and the generated text is not returned to the caller. -/
theorem usage_write_failure_cex :
    (generate_endpoint (fun _ => none) "1" 100 3600 0 (.ok resp0) false).1 =
      .failure 500 "Generation failed" := by
  decide

/-- C4 amended: when the usage-sink write fails after a successful adapter
completion, the endpoint logs the error and raises HTTP 500 "Generation
failed": the storage failure is propagated to the caller as a generation
failure and the generated text is not returned (one usage record was still
handed to the sink before the failure). -/
theorem usage_write_failure_amended (s : RLState) (user_id : String)
    (requests : Int) (window now : Nat) (response : GenerationResponse)
    (hallow : (check_rate_limit s ("user:" ++ user_id) requests window now).1.1 = true) :
    (generate_endpoint s user_id requests window now (.ok response) false).1 =
      .failure 500 "Generation failed" ∧
    (generate_endpoint s user_id requests window now (.ok response) false).2.1 = 1 := by
  simp [generate_endpoint, enforce_rate_limit, hallow]

/-- C4 amended witness: concrete failing-sink run through a fresh limiter. -/
theorem usage_write_failure_amended_witness :
    (generate_endpoint (fun _ => none) "1" 100 3600 0 (.ok resp0) false).1 =
      .failure 500 "Generation failed" ∧
    (generate_endpoint (fun _ => none) "1" 100 3600 0 (.ok resp0) false).2.1 = 1 := by
  exact usage_write_failure_amended (fun _ => none) "1" 100 3600 0 resp0 (by decide)

/-- C7: a call denied by admission control produces zero usage records — the
rate-limit check raises 429 before any generation or usage tracking — and a
call that passes admission and generates successfully hands exactly one usage
record to the sink. -/
theorem usage_record_accounting (s : RLState) (user_id : String)
    (requests : Int) (window now : Nat) :
    ((check_rate_limit s ("user:" ++ user_id) requests window now).1.1 = false →
      ∀ (gen : Except String GenerationResponse) (sink_ok : Bool),
        (generate_endpoint s user_id requests window now gen sink_ok).2.1 = 0 ∧
        (generate_endpoint s user_id requests window now gen sink_ok).1 =
          .failure 429 "Rate limit exceeded") ∧
    ((check_rate_limit s ("user:" ++ user_id) requests window now).1.1 = true →
      ∀ (response : GenerationResponse) (sink_ok : Bool),
        (generate_endpoint s user_id requests window now (.ok response) sink_ok).2.1 = 1) := by
  constructor
  · intro hdeny gen sink_ok
    simp [generate_endpoint, enforce_rate_limit, hdeny]
  · intro hallow response sink_ok
    cases sink_ok <;> simp [generate_endpoint, enforce_rate_limit, hallow]

/-- C7 witness: with limit 0 the first call is denied and yields zero records;
with limit 100 a successful generation yields exactly one record. -/
theorem usage_record_accounting_witness :
    (generate_endpoint (fun _ => none) "1" 0 3600 0 (.ok resp0) true).2.1 = 0 ∧
    (generate_endpoint (fun _ => none) "1" 100 3600 0 (.ok resp0) true).2.1 = 1 := by
  constructor
  · exact ((usage_record_accounting (fun _ => none) "1" 0 3600 0).1 (by decide)
      (.ok resp0) true).1
  · exact (usage_record_accounting (fun _ => none) "1" 100 3600 0).2 (by decide)
      resp0 true

/-- C5 counterexample: with llama.cpp configured and the GGUF file missing
from disk, `_initialize_models` completes normally — the loader's error is
caught and only logged, leaving no model loaded — and the very same missing
prerequisite then raises at the first generate call, because
`_generate_llamacpp` retries the load lazily; startup raises nothing. -/
theorem init_missing_model_cex :
    initialize_models envMissingFile settingsLlama =
      (initial_llm_state, some "llama.cpp model file not found") ∧
    generate_llamacpp_checked initial_llm_state envMissingFile settingsLlama
        llmStub req0 =
      .error "llama.cpp model file not found" := by
  exact ⟨rfl, rfl⟩

/-- C5 amended: a missing prerequisite is not fatal at startup:
`_initialize_models` catches any loader error, logs it, and returns with
nothing loaded; for the llama.cpp provider the missing prerequisite instead
raises lazily at the first generate call, which retries the load. -/
theorem init_error_swallowed (env : Env) (st : Settings) :
    (∀ e, initialize_models_inner env st = .error e →
      initialize_models env st = (initial_llm_state, some e)) ∧
    (∀ e, load_llamacpp_model env st = .error e →
      ∀ (llm : LlamaBackend) (request : GenerationRequest),
        generate_llamacpp_checked initial_llm_state env st llm request =
          .error e) := by
  constructor
  · intro e he
    simp [initialize_models, he]
  · intro e he llm request
    simp [generate_llamacpp_checked, initial_llm_state, he]

/-- C5 amended witness: the concrete missing-file environment exercises both
halves: initialization swallows the error and the generate call raises it. -/
theorem init_error_swallowed_witness :
    initialize_models envMissingFile settingsLlama =
      (initial_llm_state, some "llama.cpp model file not found") ∧
    generate_llamacpp_checked initial_llm_state envMissingFile settingsLlama
        llmStub req0 = .error "llama.cpp model file not found" := by
  have h := init_error_swallowed envMissingFile settingsLlama
  exact ⟨h.1 "llama.cpp model file not found" rfl,
    h.2 "llama.cpp model file not found" rfl llmStub req0⟩

/-- C6 counterexample: for the unrecognized provider name "gpt5",
initialization falls back to llama.cpp and logs a warning, but dispatch in
`generate_text` falls back silently — the method contains no logging call —
so the claim that both sites fall back "with a logged warning" fails at
dispatch. -/
theorem unknown_provider_dispatch_silent_cex :
    init_select "gpt5" = (.llamacpp, true) ∧
    dispatch_select "gpt5" = (.llamacpp, false) := by
  exact ⟨rfl, rfl⟩

/-- C6 amended: every provider name outside the known enumeration (matched
case-insensitively) falls back to llama.cpp at both initialization and
dispatch; the warning is logged at initialization only, dispatch falls back
silently; and the unrecognized name never causes a hard failure by itself —
initialization either loads the fallback model or catches and logs the
loader's error. -/
theorem unknown_provider_fallback (p : String)
    (hunknown : (lower p) ≠ "huggingface" ∧ (lower p) ≠ "openai" ∧
      (lower p) ≠ "anthropic" ∧ (lower p) ≠ "llamacpp" ∧
      (lower p) ≠ "llama.cpp" ∧ (lower p) ≠ "llama-cpp") :
    init_select p = (.llamacpp, true) ∧
    dispatch_select p = (.llamacpp, false) ∧
    (∀ (env : Env) (st : Settings), st.llm_provider = p →
      ((initialize_models env st).1.llamacpp_model = some () ∧
        (initialize_models env st).2 = none) ∨
      ((initialize_models env st).1 = initial_llm_state ∧
        (initialize_models env st).2.isSome)) := by
  obtain ⟨h1, h2, h3, h4, h5, h6⟩ := hunknown
  have hinit : init_select p = (.llamacpp, true) := by
    simp [init_select, h1, h2, h3, h4, h5, h6]
  refine ⟨hinit, by simp [dispatch_select, h1, h2, h3], ?_⟩
  intro env st hst
  cases hload : load_llamacpp_model env st with
  | ok u =>
    left
    simp [initialize_models, initialize_models_inner, hst, hinit, hload,
      Except.map, initial_llm_state]
  | error e =>
    right
    simp [initialize_models, initialize_models_inner, hst, hinit, hload,
      Except.map]

/-- C6 amended witness: the unrecognized name "gpt5" with a missing model file
falls back at both sites, warns at initialization only, and still boots:
initialization returns with the error logged rather than raising. -/
theorem unknown_provider_fallback_witness :
    init_select "gpt5" = (.llamacpp, true) ∧
    dispatch_select "gpt5" = (.llamacpp, false) ∧
    ((initialize_models envMissingFile settingsUnknown).1 = initial_llm_state ∧
      (initialize_models envMissingFile settingsUnknown).2.isSome) := by
  have h := unknown_provider_fallback "gpt5"
    ⟨by decide, by decide, by decide, by decide, by decide, by decide⟩
  refine ⟨h.1, h.2.1, ?_⟩
  have h3 := h.2.2 envMissingFile settingsUnknown (by decide)
  rcases h3 with h3 | h3
  · exact absurd h3.2 (by decide)
  · exact h3

end MyOwnLLM
